import Mathlib

/-!
Shallow embedding of `src/dnsdumpster/DNSDumpsterAPI.py` (class `DNSDumpsterAPI`).

The HTML tree handed to the parser by BeautifulSoup is abstracted as the
structure the code actually consumes: a table is a list of rows, a row is a
list of cells, and a cell carries its raw serialization (`str(td)`), its text
content (`td.text`) and the list of its `<span>` descendants in document order.
Network I/O (the POST of `get_dnsdumpster`, the asset GETs) and library calls
(BeautifulSoup's `findAll('table')`, `base64.b64encode`) are supplied by an
environment record; a GET returning `none` models `requests.get` raising.
Python exceptions that the code lets escape are modelled with `Except`;
exceptions swallowed by a `try/except` become `Option` plumbing.
-/

namespace DD

/-- A `<span>` element as consumed by the row extractor: its text content and
the multi-valued `class` attribute. -/
structure Span where
  text : String
  classes : List String
deriving DecidableEq

/-- A `<td>` cell: `raw` is `str(td)` (the HTML serialization used by the host
extraction), `text` is `td.text`, `spans` lists the span descendants in
document order (`td.find('span')` is the head, `td.find_all('span', class_=c)`
filters on `classes`). -/
structure Td where
  raw : String
  text : String
  spans : List Span
deriving DecidableEq

/-- A `<tr>` row: its `<td>` cells in document order (`tr.findAll('td')`). -/
structure Tr where
  tds : List Td
deriving DecidableEq

/-- A `<table>` element: its rows in document order (`table.findAll('tr')`). -/
structure Table where
  trs : List Tr
deriving DecidableEq

/-- All `<td>` descendants of a table in document order, as returned by
`table.findAll('td')`: the concatenation of the rows' cells. -/
def Table.findAll_td (t : Table) : List Td :=
  (t.trs.map Tr.tds).flatten

/-- Characters treated as line boundaries by Python's `str.splitlines`. -/
def isLineBreakChar (c : Char) : Bool :=
  c = '\n' || c = '\r' || c = '\x0b' || c = '\x0c' ||
  c = '\x1c' || c = '\x1d' || c = '\x1e' || c = '\x85' ||
  c = ' ' || c = ' '

/-- Worker for `pySplitlines`: accumulate the current line (reversed in `acc`);
a `'\r'` immediately followed by `'\n'` counts as a single boundary, and a
boundary that ends the string does not open a new (empty) line. -/
def splitlinesAux : List Char → List Char → List (List Char)
  | [], acc => [acc.reverse]
  | '\r' :: '\n' :: cs, acc =>
    acc.reverse :: (if cs.isEmpty then [] else splitlinesAux cs [])
  | c :: cs, acc =>
    if isLineBreakChar c then
      acc.reverse :: (if cs.isEmpty then [] else splitlinesAux cs [])
    else
      splitlinesAux cs (c :: acc)

/-- Python's `str.splitlines()` on the character list of a string. -/
def pySplitlines (cs : List Char) : List (List Char) :=
  if cs.isEmpty then [] else splitlinesAux cs []

/-- Characters stripped by Python's `str.strip()` (Unicode whitespace). -/
def isPySpace (c : Char) : Bool :=
  c = ' ' || c = '\t' || c = '\n' || c = '\r' || c = '\x0b' || c = '\x0c' ||
  c = '\x1c' || c = '\x1d' || c = '\x1e' || c = '\x1f' ||
  c = '\x85' || c = '\xa0' || c = ' ' ||
  (' ' ≤ c && c ≤ ' ') ||
  c = ' ' || c = ' ' || c = ' ' || c = ' ' || c = '　'

/-- Match `[0-9]{1,3}\.` at the start of `cs`. The greedy group must be
followed by a literal dot, and any digit count below the full digit run would
leave a digit (not a dot) next, so the group is forced to be the whole run,
which must have length 1 to 3. Returns the digits and the rest after the dot. -/
def matchGroupDot (cs : List Char) : Option (List Char × List Char) :=
  if (cs.takeWhile Char.isDigit).isEmpty || 3 < (cs.takeWhile Char.isDigit).length
  then none
  else
    match cs.dropWhile Char.isDigit with
    | '.' :: rest => some (cs.takeWhile Char.isDigit, rest)
    | _ => none

/-- Match the whole pattern
`([0-9]{1,3}\.[0-9]{1,3}\.[0-9]{1,3}\.[0-9]{1,3})` (line 129) at the start of
`cs`; the final group, with nothing after it, greedily takes up to 3 digits. -/
def matchQuadAt (cs : List Char) : Option (List Char) :=
  match matchGroupDot cs with
  | none => none
  | some (g1, r1) =>
  match matchGroupDot r1 with
  | none => none
  | some (g2, r2) =>
  match matchGroupDot r2 with
  | none => none
  | some (g3, r3) =>
  if (r3.takeWhile Char.isDigit).isEmpty then none
  else
    some (g1 ++ '.' :: (g2 ++ '.' :: (g3 ++ '.' ::
      (r3.takeWhile Char.isDigit).take 3)))

/-- Leftmost match of the dotted-quad pattern, i.e. the element `[0]` of
`re.findall(pattern_ip, text)` (line 132): `re.findall` scans left to right,
so its first element is the match at the earliest matching position. -/
def firstQuad : List Char → Option (List Char)
  | [] => none
  | c :: cs =>
    match matchQuadAt (c :: cs) with
    | some m => some m
    | none => firstQuad cs

/-- A block of 1 to 3 digit characters. -/
def quadGroup (g : List Char) : Prop :=
  g ≠ [] ∧ g.length ≤ 3 ∧ ∀ c ∈ g, c.isDigit

/-- The shape matched by the dotted-quad pattern of line 129: four groups of
1 to 3 digits separated by dots. -/
def isQuadString (m : List Char) : Prop :=
  ∃ g1 g2 g3 g4, quadGroup g1 ∧ quadGroup g2 ∧ quadGroup g3 ∧ quadGroup g4 ∧
    m = g1 ++ '.' :: (g2 ++ '.' :: (g3 ++ '.' :: g4))

/-- Python's `str.strip()` on a character list: drop leading and trailing
whitespace. -/
def pyStripL (cs : List Char) : List Char :=
  ((cs.dropWhile isPySpace).reverse.dropWhile isPySpace).reverse

/-- Python's `str.strip()`: drop leading and trailing whitespace. -/
def pyStrip (s : String) : String :=
  String.mk (pyStripL s.data)

/-- Python's `'\n'.join(...)` on character lists. -/
def pyJoinNl : List (List Char) → List Char
  | [] => []
  | [l] => l
  | l :: ls => l ++ '\n' :: pyJoinNl ls

/-- The `open_service` expression of lines 140-147:
`"\n".join(line.strip() for line in text.splitlines() if line.strip())`. -/
def openServiceOf (text : String) : String :=
  String.mk (pyJoinNl
    (((pySplitlines text.data).map pyStripL).filter (fun l => !l.isEmpty)))

/-- Literal-match test: `lit` occurs at the start of `cs`. -/
def startsWithLit : List Char → List Char → Bool
  | [], _ => true
  | _ :: _, [] => false
  | a :: l1, b :: l2 => a = b && startsWithLit l1 l2

/-- The characters before the first occurrence of `sep` (the whole list when
`sep` does not occur): Python's `s.split(sep)[0]`, which is always defined. -/
def takeUntilLit (sep : List Char) : List Char → List Char
  | [] => []
  | c :: cs =>
    if startsWithLit sep (c :: cs) then [] else c :: takeUntilLit sep cs

/-- Python's `str.split(sep)` for a single-character separator: consecutive
separators produce empty pieces, and the result always has one more piece
than there are separators. -/
def pySplitChar (sep : Char) : List Char → List (List Char)
  | [] => [[]]
  | c :: cs =>
    if c = sep then [] :: pySplitChar sep cs
    else
      match pySplitChar sep cs with
      | [] => [[c]]
      | p :: ps => (c :: p) :: ps

/-- Host extraction of line 131:
`str(tds[0]).split('<br/>')[0].split('>')[1].split('<')[0]`.
`split(sep)[0]` is the text before the first `sep` and is always defined; the
`[1]` step raises `IndexError` (here: `none`) when that text has no `'>'`. -/
def hostOf (raw : String) : Option String :=
  let s1 := takeUntilLit "<br/>".data raw.data
  match (pySplitChar '>' s1)[1]? with
  | none => none
  | some s2 => some (String.mk (takeUntilLit "<".data s2))

/-- Lines 134-136: `asn`/`asn_range` from the third cell's text. When the text
contains a newline, the pieces at indices 1 and 2 of `split('\n')` are taken;
a missing index 2 (text with exactly one newline) raises `IndexError`
(here: `none`), which the caller's `except` turns into dropping the row. -/
def asnPair (autonomous_system : String) : Option (String × String) :=
  if autonomous_system.data.contains '\n' then
    match (pySplitChar '\n' autonomous_system.data)[1]? with
    | none => none
    | some a =>
      match (pySplitChar '\n' autonomous_system.data)[2]? with
      | none => none
      | some b => some (String.mk a, String.mk b)
  else some ("", "")

/-- One extracted record, the dict built at lines 148-157. Field names follow
the Python local variables; the dict keys are `host`, `ip`, `reverse_dns`,
`as` (field `asn`), `asn_range`, `asn_name`, `asn_country` (field `country`),
`open_service` — exactly eight keys. -/
structure RowEntry where
  host : String
  ip : String
  reverse_dns : String
  asn : String
  asn_range : String
  asn_name : String
  country : String
  open_service : String
deriving DecidableEq

/-- Line 133: `tds[1].find('span', attrs={}).text if ... else ""` — the text
of the first span descendant of the second cell, else the empty string (an
empty span is falsy in bs4 only if it has no content, in which case its text
is `""` as well, so both readings agree). -/
def reverseDnsOf (td1 : Td) : String :=
  match td1.spans.head? with
  | some sp => sp.text
  | none => ""

/-- Line 134: `tds[2].text if len(tds) > 2 else ""`. -/
def asText (tds2 : Option Td) : String :=
  match tds2 with
  | some td => td.text
  | none => ""

/-- Line 137: `tds[3].find_all('span', class_='sm-text') if len(tds) > 3
else []` — the span descendants of the optional fourth cell carrying the
class `sm-text`. -/
def spanElementsOf (tds3 : Option Td) : List Span :=
  match tds3 with
  | some td => td.spans.filter (fun sp => sp.classes.contains "sm-text")
  | none => []

/-- Line 138: `span_elements[0].text.strip() if len(span_elements) > 0
else ""`. -/
def asnNameOf (span_elements : List Span) : String :=
  match span_elements[0]? with
  | some sp => pyStrip sp.text
  | none => ""

/-- Line 139: `span_elements[1].text.strip() if len(span_elements) > 1
else ""`. -/
def countryOf (span_elements : List Span) : String :=
  match span_elements[1]? with
  | some sp => pyStrip sp.text
  | none => ""

/-- Lines 140-147: the fifth cell's joined non-blank trimmed lines, or the
sentinel `"N/A"` when the row has at most 4 cells. -/
def openServiceField (tds4 : Option Td) : String :=
  match tds4 with
  | some td => openServiceOf td.text
  | none => "N/A"

/-- The body of the per-row `try` block (lines 130-158). Each operation that
can raise an exception caught by the `except` at line 159 is an `Option` step;
`none` means the row is skipped. -/
def extract_row (tr : Tr) : Option RowEntry :=
  match tr.tds[0]? with
  | none => none
  | some td0 =>
  match hostOf td0.raw with
  | none => none
  | some host =>
  match tr.tds[1]? with
  | none => none
  | some td1 =>
  match firstQuad td1.text.data with
  | none => none
  | some ipm =>
  match asnPair (asText tr.tds[2]?) with
  | none => none
  | some (asn, asn_range) =>
  some { host := host, ip := String.mk ipm, reverse_dns := reverseDnsOf td1,
         asn := asn, asn_range := asn_range,
         asn_name := asnNameOf (spanElementsOf tr.tds[3]?),
         country := countryOf (spanElementsOf tr.tds[3]?),
         open_service := openServiceField tr.tds[4]? }

/-- `retrieve_results` (lines 118-161): loop over the table's rows, appending
the rows whose extraction succeeds and silently skipping the others. -/
def retrieve_results (table : Table) : List RowEntry :=
  table.trs.foldl
    (fun res tr =>
      match extract_row tr with
      | some data => res ++ [data]
      | none => res)
    []

/-- `retrieve_txt_record` (lines 163-173): one trimmed text entry per `<td>`
of the table, in document order. -/
def retrieve_txt_record (table : Table) : List String :=
  table.findAll_td.foldl (fun res td => res ++ [pyStrip td.text]) []

/-- Characters of the class `[a-f0-9-]` in the asset-URL patterns
(lines 86 and 100). -/
def isHexDash (c : Char) : Bool :=
  ('a' ≤ c && c ≤ 'f') || ('0' ≤ c && c ≤ '9') || c = '-'

/-- Match `lit` then `[a-f0-9-]+` then the literal `suffixLit` at the start of
`cs`. Since the class excludes `'.'`, the greedy run is forced maximal and the
suffix must follow it immediately; returns the full matched text. -/
def matchAssetAt (lit suffixLit cs : List Char) : Option (List Char) :=
  if startsWithLit lit cs then
    let rest := cs.drop lit.length
    let w := rest.takeWhile isHexDash
    if !w.isEmpty && startsWithLit suffixLit (rest.dropWhile isHexDash) then
      some (lit ++ w ++ suffixLit)
    else none
  else none

/-- Leftmost match of `lit + [a-f0-9-]+ + suffixLit`, i.e. the element `[0]`
of `re.findall(pattern, html)` at lines 87 and 101 (the domain placed in the
pattern is `re.escape`d, hence a literal). -/
def findUrlFrom (lit suffixLit : List Char) : List Char → Option (List Char)
  | [] => none
  | c :: cs =>
    match matchAssetAt lit suffixLit (c :: cs) with
    | some m => some m
    | none => findUrlFrom lit suffixLit cs

/-- The `map_url` of line 87: first match in `html` of
`https://api.dnsdumpster.com/static/maps/<domain>-[a-f0-9-]+\.png`. -/
def imageUrl (html domain : String) : Option String :=
  (findUrlFrom ("https://api.dnsdumpster.com/static/maps/" ++ domain ++ "-").data
    ".png".data html.data).map String.mk

/-- The `xls_url` of line 101: first match in `html` of
`https://api.dnsdumpster.com/static/xlsx/<domain>-[a-f0-9-]+\.xlsx`. -/
def xlsUrl (html domain : String) : Option String :=
  (findUrlFrom ("https://api.dnsdumpster.com/static/xlsx/" ++ domain ++ "-").data
    ".xlsx".data html.data).map String.mk

/-- External world of the client: the POST of `get_dnsdumpster` (token and
target to status code and body), BeautifulSoup's `findAll('table')` on an HTML
string, `requests.get(url).content` (`none` models a raised exception, the
only failure the `except` blocks at lines 91 and 105 can see — a non-200
status still yields content), and `base64.b64encode(..).decode('utf-8')`,
which is total. -/
structure Env where
  post : String → String → Nat × String
  soupTables : String → List Table
  httpGet : String → Option (List Nat)
  b64encode : List Nat → String

/-- Python exceptions the code lets escape. -/
inductive PyExn
  | indexError
deriving DecidableEq

/-- The `dns_records` mapping with its four keys (lines 79-82). -/
structure DNSRecords where
  a : List RowEntry
  mx : List RowEntry
  ns : List RowEntry
  txt : List String
deriving DecidableEq

/-- The Query Result dict assembled by `parse_dnsdumpster`:
`{domain, dns_records, image_data, xls_data}`. -/
structure QueryResult where
  domain : String
  dns_records : DNSRecords
  image_data : Option String
  xls_data : Option String
deriving DecidableEq

/-- `parse_dnsdumpster` (lines 64-116). The guard is `len(tables) >= 4`
(line 78), after which `tables[1]`..`tables[4]` are accessed outside any
`try`; an out-of-range access (possible only for `tables[4]`, when exactly 4
tables are present) raises an uncaught `IndexError`. Each asset block
(image, xls) is a `try/except/finally` that leaves `none` on a missing
pattern match or a failed GET. Fewer than 4 tables yields `res = None`. -/
def parse_dnsdumpster (env : Env) (html domain : String) :
    Except PyExn (Option QueryResult) :=
  let tables := env.soupTables html
  if tables.length ≥ 4 then
    match tables[1]?, tables[2]?, tables[3]?, tables[4]? with
    | some t1, some t2, some t3, some t4 =>
      let image_data := (imageUrl html domain).bind
        (fun url => (env.httpGet url).map env.b64encode)
      let xls_data := (xlsUrl html domain).bind
        (fun url => (env.httpGet url).map env.b64encode)
      Except.ok (some
        { domain := domain
          dns_records :=
            { a := retrieve_results t1
              mx := retrieve_results t2
              ns := retrieve_results t3
              txt := retrieve_txt_record t4 }
          image_data := image_data
          xls_data := xls_data })
    | _, _, _, _ => Except.error PyExn.indexError
  else Except.ok none

/-- Observable actions recorded by the orchestration layer: the POST of
`get_dnsdumpster` and the invocation of `parse_dnsdumpster`. -/
inductive Effect
  | postCall
  | parseCall
deriving DecidableEq

/-- `get_dnsdumpster` (lines 41-62) with its effect trace. A falsy
`self.authorization` (Python `None` or the empty string) returns `None`
before any network call; otherwise one POST is issued and a non-200 status
yields `None`, a 200 yields the body verbatim. -/
def get_dnsdumpster (auth : Option String) (env : Env) (target : String) :
    Option String × List Effect :=
  match auth with
  | none => (none, [])
  | some tok =>
    if tok = "" then (none, [])
    else
      let r := env.post tok target
      (if r.1 = 200 then some r.2 else none, [Effect.postCall])

/-- `search` (lines 175-188): submit, then `if html:` — a `None` or empty
body skips the parser and returns `None`. -/
def search (auth : Option String) (env : Env) (domain : String) :
    Except PyExn (Option QueryResult) × List Effect :=
  let r := get_dnsdumpster auth env domain
  match r.1 with
  | none => (Except.ok none, r.2)
  | some html =>
    if html = "" then (Except.ok none, r.2)
    else (parse_dnsdumpster env html domain, r.2 ++ [Effect.parseCall])

/-- Fixture: a first cell whose serialization yields the host
`ns1.example.com`. -/
def tdHost : Td :=
  { raw := "<td>ns1.example.com<br/>x</td>", text := "ns1.example.com",
    spans := [] }

/-- Fixture: a second cell whose text contains the address `192.0.2.1`. -/
def tdIp : Td :=
  { raw := "<td>192.0.2.1</td>", text := "192.0.2.1 AS1234", spans := [] }

/-- Fixture: a second cell with no dotted-quad substring. -/
def tdNoQuad : Td :=
  { raw := "<td>no address</td>", text := "no address", spans := [] }

/-- Fixture: a third cell whose text contains exactly one newline. -/
def tdAsnOne : Td :=
  { raw := "", text := "AS15169\n8.8.8.0/24", spans := [] }

/-- Fixture: a third cell whose text contains two newlines. -/
def tdAsnTwo : Td :=
  { raw := "", text := "x\nAS15169\n8.8.8.0/24", spans := [] }

/-- Fixture: a blank cell. -/
def tdBlank : Td := { raw := "", text := "", spans := [] }

/-- Fixture: a fifth cell whose text is literally `N/A`. -/
def tdNA : Td := { raw := "", text := "N/A", spans := [] }

/-- Fixture: a row with host and ip cells only. -/
def rowGood : Tr := { tds := [tdHost, tdIp] }

/-- Fixture: a row whose second cell has no dotted-quad substring. -/
def rowNoQuad : Tr := { tds := [tdHost, tdNoQuad] }

/-- Fixture: a row whose third cell has exactly one newline. -/
def rowAsnOne : Tr := { tds := [tdHost, tdIp, tdAsnOne] }

/-- Fixture: a row whose third cell has two newlines. -/
def rowAsnTwo : Tr := { tds := [tdHost, tdIp, tdAsnTwo] }

/-- Fixture: a five-cell row whose fifth cell reads `N/A`. -/
def rowFiveNA : Tr := { tds := [tdHost, tdIp, tdBlank, tdBlank, tdNA] }

/-- The entry extracted from `rowGood`. -/
def entryGood : RowEntry :=
  { host := "ns1.example.com", ip := "192.0.2.1", reverse_dns := "",
    asn := "", asn_range := "", asn_name := "", country := "",
    open_service := "N/A" }

/-- The entry extracted from `rowAsnTwo`. -/
def entryAsnTwo : RowEntry :=
  { host := "ns1.example.com", ip := "192.0.2.1", reverse_dns := "",
    asn := "AS15169", asn_range := "8.8.8.0/24", asn_name := "", country := "",
    open_service := "N/A" }

/-- Fixture: a table mixing extractable and non-extractable rows. -/
def tableMixed : Table := { trs := [rowGood, rowNoQuad, rowAsnTwo] }

/-- Fixture: a TXT table with two cells. -/
def tableTxt : Table :=
  { trs := [{ tds := [{ raw := "", text := " v=spf1 ", spans := [] },
                      { raw := "", text := "txt2", spans := [] }] }] }

/-- Fixture environment: every request fails, the page has no tables. -/
def envW : Env :=
  { post := fun _ _ => (500, ""), soupTables := fun _ => [],
    httpGet := fun _ => none, b64encode := fun _ => "" }

/-- Fixture environment: the POST succeeds with an empty body. -/
def envEB : Env :=
  { post := fun _ _ => (200, ""), soupTables := fun _ => [],
    httpGet := fun _ => none, b64encode := fun _ => "" }

/-- Fixture environment: the page parses into `n` empty tables. -/
def envNT (n : Nat) : Env :=
  { post := fun _ _ => (200, "x"),
    soupTables := fun _ => List.replicate n { trs := [] },
    httpGet := fun _ => none, b64encode := fun _ => "" }

/-- Fixture environment: five tables (index 1 is `tableMixed`, index 4 is
`tableTxt`); asset GETs fail. -/
def env5 : Env :=
  { post := fun _ _ => (200, "x"),
    soupTables := fun _ =>
      [{ trs := [] }, tableMixed, { trs := [] }, { trs := [] }, tableTxt],
    httpGet := fun _ => none, b64encode := fun _ => "" }

/-- An HTML body containing a network-map image URL for `example.com`. -/
def htmlImg : String :=
  "x https://api.dnsdumpster.com/static/maps/example.com-0a1b.png y"

/-- The result of parsing a plain page under `env5` for `example.com`. -/
def qres5 : QueryResult :=
  { domain := "example.com",
    dns_records :=
      { a := [entryGood, entryAsnTwo], mx := [], ns := [],
        txt := ["v=spf1", "txt2"] },
    image_data := none, xls_data := none }

/-- A successful `matchGroupDot` returns a block of 1 to 3 digits. -/
theorem matchGroupDot_spec {cs g r : List Char}
    (h : matchGroupDot cs = some (g, r)) : quadGroup g := by
  unfold matchGroupDot at h
  split at h
  · exact absurd h (by simp)
  · rename_i hcond
    split at h
    · simp only [Option.some.injEq, Prod.mk.injEq] at h
      obtain ⟨rfl, rfl⟩ := h
      simp only [Bool.or_eq_true, not_or, decide_eq_true_eq] at hcond
      refine ⟨?_, by omega, fun c hc => List.mem_takeWhile_imp hc⟩
      intro hnil
      exact absurd (by simp [hnil]) hcond.1
    · exact absurd h (by simp)

/-- A successful `matchQuadAt` returns a dotted quad. -/
theorem matchQuadAt_isQuad {cs m : List Char} (h : matchQuadAt cs = some m) :
    isQuadString m := by
  unfold matchQuadAt at h
  split at h
  · exact absurd h (by simp)
  · rename_i g1 r1 h1
    split at h
    · exact absurd h (by simp)
    · rename_i g2 r2 h2
      split at h
      · exact absurd h (by simp)
      · rename_i g3 r3 h3
        split at h
        · exact absurd h (by simp)
        · rename_i hne
          have hne2 : r3.takeWhile Char.isDigit ≠ [] := fun hemp =>
            hne (by simp [hemp])
          simp only [Option.some.injEq] at h
          subst h
          refine ⟨g1, g2, g3, (r3.takeWhile Char.isDigit).take 3,
            matchGroupDot_spec h1, matchGroupDot_spec h2,
            matchGroupDot_spec h3, ⟨?_, ?_, ?_⟩, rfl⟩
          · intro hnil
            rw [List.take_eq_nil_iff] at hnil
            rcases hnil with h3' | h3'
            · exact absurd h3' (by omega)
            · exact hne2 h3'
          · simp [List.length_take]
          · exact fun c hc =>
              List.mem_takeWhile_imp (List.take_subset 3 _ hc)

/-- The leftmost dotted-quad match is a dotted quad. -/
theorem firstQuad_isQuad {cs m : List Char} (h : firstQuad cs = some m) :
    isQuadString m := by
  induction cs with
  | nil => simp [firstQuad] at h
  | cons c cs ih =>
    rw [firstQuad] at h
    cases hm : matchQuadAt (c :: cs) with
    | some m2 =>
      rw [hm] at h
      cases h
      exact matchQuadAt_isQuad hm
    | none =>
      rw [hm] at h
      exact ih h

/-- The row loop of `retrieve_results` is a `filterMap`. -/
theorem foldl_extract_eq (l : List Tr) (acc : List RowEntry) :
    l.foldl
      (fun res tr =>
        match extract_row tr with
        | some data => res ++ [data]
        | none => res) acc
      = acc ++ l.filterMap extract_row := by
  induction l generalizing acc with
  | nil => simp
  | cons tr l ih =>
    simp only [List.foldl_cons, List.filterMap_cons]
    cases h : extract_row tr with
    | none => simp only [h]; rw [ih]
    | some data => simp only [h]; rw [ih, List.append_assoc]; rfl

/-- `retrieve_results` keeps exactly the rows whose extraction succeeds, in
table order. -/
theorem retrieve_results_eq (t : Table) :
    retrieve_results t = t.trs.filterMap extract_row :=
  foldl_extract_eq t.trs []

/-- The cell loop of `retrieve_txt_record` is a `map`. -/
theorem foldl_strip_eq (l : List Td) (acc : List String) :
    l.foldl (fun res td => res ++ [pyStrip td.text]) acc
      = acc ++ l.map (fun td => pyStrip td.text) := by
  induction l generalizing acc with
  | nil => simp
  | cons td l ih => simp only [List.foldl_cons, List.map_cons]
                    rw [ih, List.append_assoc]; rfl

/-- `retrieve_txt_record` maps trimming over the table's cells. -/
theorem retrieve_txt_eq (t : Table) :
    retrieve_txt_record t = t.findAll_td.map (fun td => pyStrip td.text) :=
  foldl_strip_eq t.findAll_td []

/-- When every fallible step succeeds, `extract_row` returns the assembled
record. -/
theorem extract_row_eq_some {tr : Tr} {td0 td1 : Td} {host : String}
    {ipm : List Char} {a b : String}
    (h0 : tr.tds[0]? = some td0) (hh : hostOf td0.raw = some host)
    (h1 : tr.tds[1]? = some td1) (hip : firstQuad td1.text.data = some ipm)
    (ha : asnPair (asText tr.tds[2]?) = some (a, b)) :
    extract_row tr = some
      { host := host, ip := String.mk ipm, reverse_dns := reverseDnsOf td1,
        asn := a, asn_range := b,
        asn_name := asnNameOf (spanElementsOf tr.tds[3]?),
        country := countryOf (spanElementsOf tr.tds[3]?),
        open_service := openServiceField tr.tds[4]? } := by
  simp only [extract_row, h0, hh, h1, hip, ha]

/-- When the `asn` step fails, the row is dropped. -/
theorem extract_row_none_of_asn {tr : Tr} {td0 td1 : Td} {host : String}
    {ipm : List Char}
    (h0 : tr.tds[0]? = some td0) (hh : hostOf td0.raw = some host)
    (h1 : tr.tds[1]? = some td1) (hip : firstQuad td1.text.data = some ipm)
    (ha : asnPair (asText tr.tds[2]?) = none) :
    extract_row tr = none := by
  simp only [extract_row, h0, hh, h1, hip, ha]

/-- When the second cell has no dotted-quad match, the row is dropped. -/
theorem extract_row_none_of_no_ip {tr : Tr} {td1 : Td}
    (h1 : tr.tds[1]? = some td1) (hq : firstQuad td1.text.data = none) :
    extract_row tr = none := by
  cases h0 : tr.tds[0]? with
  | none => simp only [extract_row, h0]
  | some td0 =>
    cases hh : hostOf td0.raw with
    | none => simp only [extract_row, h0, hh]
    | some host => simp only [extract_row, h0, hh, h1, hq]

/-- Inversion: a successful extraction pins every field of the record. -/
theorem extract_row_inv {tr : Tr} {e : RowEntry} (h : extract_row tr = some e) :
    ∃ td0 host td1 ipm a b,
      tr.tds[0]? = some td0 ∧ hostOf td0.raw = some host ∧
      tr.tds[1]? = some td1 ∧ firstQuad td1.text.data = some ipm ∧
      asnPair (asText tr.tds[2]?) = some (a, b) ∧
      e = { host := host, ip := String.mk ipm, reverse_dns := reverseDnsOf td1,
            asn := a, asn_range := b,
            asn_name := asnNameOf (spanElementsOf tr.tds[3]?),
            country := countryOf (spanElementsOf tr.tds[3]?),
            open_service := openServiceField tr.tds[4]? } := by
  cases h0 : tr.tds[0]? with
  | none =>
    simp only [extract_row, h0] at h
    exact Option.noConfusion h
  | some td0 =>
  cases hh : hostOf td0.raw with
  | none =>
    simp only [extract_row, h0, hh] at h
    exact Option.noConfusion h
  | some host =>
  cases h1 : tr.tds[1]? with
  | none =>
    simp only [extract_row, h0, hh, h1] at h
    exact Option.noConfusion h
  | some td1 =>
  cases hip : firstQuad td1.text.data with
  | none =>
    simp only [extract_row, h0, hh, h1, hip] at h
    exact Option.noConfusion h
  | some ipm =>
  cases ha : asnPair (asText tr.tds[2]?) with
  | none =>
    simp only [extract_row, h0, hh, h1, hip, ha] at h
    exact Option.noConfusion h
  | some p =>
    obtain ⟨a, b⟩ := p
    simp only [extract_row, h0, hh, h1, hip, ha, Option.some.injEq] at h
    exact ⟨td0, host, td1, ipm, a, b, rfl, hh, rfl, hip, rfl, h.symm⟩

/-- Inversion: a successful parse pins the whole Query Result. -/
theorem parse_ok_inv {env : Env} {html domain : String} {res : QueryResult}
    (h : parse_dnsdumpster env html domain = Except.ok (some res)) :
    ∃ t1 t2 t3 t4,
      (env.soupTables html)[1]? = some t1 ∧
      (env.soupTables html)[2]? = some t2 ∧
      (env.soupTables html)[3]? = some t3 ∧
      (env.soupTables html)[4]? = some t4 ∧
      res = { domain := domain,
              dns_records :=
                { a := retrieve_results t1, mx := retrieve_results t2,
                  ns := retrieve_results t3, txt := retrieve_txt_record t4 },
              image_data := (imageUrl html domain).bind
                (fun url => (env.httpGet url).map env.b64encode),
              xls_data := (xlsUrl html domain).bind
                (fun url => (env.httpGet url).map env.b64encode) } := by
  by_cases hlen : (env.soupTables html).length ≥ 4
  · simp only [parse_dnsdumpster] at h
    rw [if_pos hlen,
        List.getElem?_eq_getElem (show 1 < (env.soupTables html).length
          by omega),
        List.getElem?_eq_getElem (show 2 < (env.soupTables html).length
          by omega),
        List.getElem?_eq_getElem (show 3 < (env.soupTables html).length
          by omega)] at h
    cases h4 : (env.soupTables html)[4]? with
    | none =>
      rw [h4] at h
      exact Except.noConfusion h
    | some t4 =>
      rw [h4] at h
      simp only [Except.ok.injEq, Option.some.injEq] at h
      exact ⟨_, _, _, t4,
        List.getElem?_eq_getElem (show 1 < (env.soupTables html).length
          by omega),
        List.getElem?_eq_getElem (show 2 < (env.soupTables html).length
          by omega),
        List.getElem?_eq_getElem (show 3 < (env.soupTables html).length
          by omega),
        rfl, h.symm⟩
  · simp only [parse_dnsdumpster] at h
    rw [if_neg hlen] at h
    exact absurd h (by simp)

/-- The submit step can at most record its POST; it never records a parser
invocation. -/
theorem parseCall_not_in_get (auth : Option String) (env : Env)
    (target : String) :
    Effect.parseCall ∉ (get_dnsdumpster auth env target).2 := by
  unfold get_dnsdumpster
  cases auth with
  | none => simp
  | some tok =>
    by_cases htok : tok = ""
    · simp [htok]
    · simp [htok]

/-- C1: the claim says every input with fewer than 5 tables yields Absent and
that exactly 4 tables yields Absent rather than an escaping exception. The
code guards with `len(tables) >= 4` (line 78) and then reads `tables[4]`
(line 82) outside any `try`, so a page parsing into exactly 4 tables raises
an uncaught IndexError, while 3 tables do yield Absent: the guard is off by
one against the spec's stated intent. -/
theorem c1_four_tables_index_error :
    parse_dnsdumpster (envNT 4) "<html></html>" "example.com"
      = Except.error PyExn.indexError ∧
    parse_dnsdumpster (envNT 3) "<html></html>" "example.com"
      = Except.ok none :=
  ⟨rfl, rfl⟩

/-- C2 counterexample: in `rowAsnOne` the host and ip extraction succeed and
the third cell's text `"AS15169\n8.8.8.0/24"` contains a line break, yet the
row is dropped from its table (`split('\n')[2]` raises IndexError), refuting
the claim that the third cell's content never causes the row to be dropped. -/
theorem c2_third_cell_counterexample :
    '\n' ∈ (asText rowAsnOne.tds[2]?).data ∧
    hostOf tdHost.raw = some "ns1.example.com" ∧
    firstQuad tdIp.text.data = some "192.0.2.1".data ∧
    extract_row rowAsnOne = none ∧
    retrieve_results { trs := [rowAsnOne] } = [] := by
  decide

/-- C2 (amended): for a row whose host and ip extraction succeed, with `s` the
third cell's text (empty when the cell is absent): if `s` has no newline the
row is kept with `as` and `asn_range` empty; if `s` has a newline and
`split('\n')` has pieces at indices 1 and 2 (at least two newlines) the row is
kept with those pieces; if `s` has a newline but no piece at index 2 (exactly
one newline) the row is dropped. -/
theorem c2_amended_third_cell {tr : Tr} {td0 td1 : Td} {host : String}
    {ipm : List Char}
    (h0 : tr.tds[0]? = some td0) (hh : hostOf td0.raw = some host)
    (h1 : tr.tds[1]? = some td1) (hip : firstQuad td1.text.data = some ipm) :
    ('\n' ∉ (asText tr.tds[2]?).data →
      ∃ e, extract_row tr = some e ∧ e.asn = "" ∧ e.asn_range = "") ∧
    (∀ a b, '\n' ∈ (asText tr.tds[2]?).data →
      (pySplitChar '\n' (asText tr.tds[2]?).data)[1]? = some a →
      (pySplitChar '\n' (asText tr.tds[2]?).data)[2]? = some b →
      ∃ e, extract_row tr = some e ∧
        e.asn = String.mk a ∧ e.asn_range = String.mk b) ∧
    ('\n' ∈ (asText tr.tds[2]?).data →
      (pySplitChar '\n' (asText tr.tds[2]?).data)[2]? = none →
      extract_row tr = none) := by
  refine ⟨?_, ?_, ?_⟩
  · intro hnc
    refine ⟨_, extract_row_eq_some h0 hh h1 hip ?_, rfl, rfl⟩
    simp [asnPair, hnc]
  · intro a b hc ha hb
    refine ⟨_, extract_row_eq_some h0 hh h1 hip ?_, rfl, rfl⟩
    simp [asnPair, hc, ha, hb]
  · intro hc hb
    apply extract_row_none_of_asn h0 hh h1 hip
    cases hp : (pySplitChar '\n' (asText tr.tds[2]?).data)[1]? with
    | none => simp [asnPair, hc, hp]
    | some a => simp [asnPair, hc, hp, hb]

/-- C2 witness: the amended claim at `rowAsnTwo` (two newlines, row kept with
the second and third pieces) and `rowAsnOne` (one newline, row dropped). -/
theorem c2_amended_third_cell_witness :
    (∃ e, extract_row rowAsnTwo = some e ∧
      e.asn = String.mk "AS15169".data ∧
      e.asn_range = String.mk "8.8.8.0/24".data) ∧
    extract_row rowAsnOne = none :=
  ⟨(@c2_amended_third_cell rowAsnTwo tdHost tdIp "ns1.example.com"
      "192.0.2.1".data (by decide) (by decide) (by decide) (by decide)).2.1
      "AS15169".data "8.8.8.0/24".data (by decide) (by decide) (by decide),
   (@c2_amended_third_cell rowAsnOne tdHost tdIp "ns1.example.com"
      "192.0.2.1".data (by decide) (by decide) (by decide) (by decide)).2.2
      (by decide) (by decide)⟩

/-- C3: row extraction is isolated per row. `retrieve_results` is exactly the
order-preserving `filterMap` of the total function `extract_row` over the
table's rows (so a failing row is omitted, every other row's outcome is
unchanged, and no exception escapes — `retrieve_results` is total by
construction), and a row whose second cell's text has no dotted-quad match is
one of the omitted ones. -/
theorem c3_row_isolation :
    (∀ t : Table, retrieve_results t = t.trs.filterMap extract_row) ∧
    (∀ (tr : Tr) (td1 : Td), tr.tds[1]? = some td1 →
      firstQuad td1.text.data = none → extract_row tr = none) :=
  ⟨retrieve_results_eq,
   fun _ _ h1 hq => extract_row_none_of_no_ip h1 hq⟩

/-- C3 witness: the isolation statement at `tableMixed`, whose middle row
(`rowNoQuad`) has no dotted-quad substring and is dropped. -/
theorem c3_row_isolation_witness :
    retrieve_results tableMixed = tableMixed.trs.filterMap extract_row ∧
    extract_row rowNoQuad = none :=
  ⟨c3_row_isolation.1 tableMixed,
   c3_row_isolation.2 rowNoQuad tdNoQuad (by decide) (by decide)⟩

/-- C4 counterexample: `rowFiveNA` has 5 cells, yet its extracted
`open_service` equals the literal `"N/A"`, because the fifth cell's text is
itself `"N/A"`; this refutes the claim's "exactly when the row has at most 4
cells" and its "a value that is not the string N/A". -/
theorem c4_open_service_counterexample :
    rowFiveNA.tds.length = 5 ∧
    (extract_row rowFiveNA).map RowEntry.open_service = some "N/A" := by
  decide

/-- C4 (amended): for every extracted row entry, `open_service` is `"N/A"`
whenever the row has at most 4 cells, and with 5 or more cells it equals the
fifth cell's non-blank text lines, each trimmed, rejoined with line breaks — a
value that may coincide with `"N/A"` when the cell's text is itself `N/A`. -/
theorem c4_amended_open_service {tr : Tr} {e : RowEntry}
    (h : extract_row tr = some e) :
    (tr.tds.length ≤ 4 → e.open_service = "N/A") ∧
    (∀ td4, tr.tds[4]? = some td4 →
      e.open_service = openServiceOf td4.text) := by
  obtain ⟨td0, host, td1, ipm, a, b, _, _, _, _, _, rfl⟩ := extract_row_inv h
  constructor
  · intro hlen
    have h4 : tr.tds[4]? = none := List.getElem?_eq_none hlen
    simp [openServiceField, h4]
  · intro td4 h4
    simp [openServiceField, h4]

/-- C4 witness: the amended claim at the 2-cell row `rowGood` (sentinel) and
at the 5-cell row `rowFiveNA` (joined lines of the fifth cell). -/
theorem c4_amended_open_service_witness :
    entryGood.open_service = "N/A" ∧
    entryGood.open_service = openServiceOf tdNA.text :=
  ⟨(@c4_amended_open_service rowGood entryGood (by decide)).1 (by decide),
   (@c4_amended_open_service rowFiveNA entryGood (by decide)).2 tdNA
      (by decide)⟩

/-- C5: a falsy token makes `get_dnsdumpster` return Absent with an empty
effect trace (no POST), and whenever the submit step yields Absent, `search`
returns Absent with no parser invocation in its trace. -/
theorem c5_token_short_circuit :
    (∀ (env : Env) (domain : String),
      get_dnsdumpster none env domain = (none, [])) ∧
    (∀ (auth : Option String) (env : Env) (domain : String),
      (get_dnsdumpster auth env domain).1 = none →
      (search auth env domain).1 = Except.ok none ∧
      Effect.parseCall ∉ (search auth env domain).2) := by
  refine ⟨fun env domain => rfl, fun auth env domain h => ⟨?_, ?_⟩⟩
  · simp [search, h]
  · simp only [search, h]
    exact parseCall_not_in_get auth env domain

/-- C5 witness: the short-circuit at a concrete environment with no token. -/
theorem c5_token_short_circuit_witness :
    get_dnsdumpster none envW "example.com" = (none, []) ∧
    (search none envW "example.com").1 = Except.ok none ∧
    Effect.parseCall ∉ (search none envW "example.com").2 :=
  ⟨c5_token_short_circuit.1 envW "example.com",
   c5_token_short_circuit.2 none envW "example.com" rfl⟩

/-- C6: after a successful parse, a missing image-URL match gives a null
`image_data`, a matched URL whose fetch fails also gives null, `xls_data`
follows its own fetch-or-null policy (an expression not involving the image
outcome), and the `dns_records` part is the same under any environment with
the same table parse — asset failures never abort the parse or change the
records. -/
theorem c6_asset_isolation {env : Env} {html domain : String}
    {res : QueryResult}
    (h : parse_dnsdumpster env html domain = Except.ok (some res)) :
    (imageUrl html domain = none → res.image_data = none) ∧
    (∀ url, imageUrl html domain = some url → env.httpGet url = none →
      res.image_data = none) ∧
    (res.xls_data = (xlsUrl html domain).bind
      (fun url => (env.httpGet url).map env.b64encode)) ∧
    (∀ (env2 : Env) (res2 : QueryResult),
      env2.soupTables html = env.soupTables html →
      parse_dnsdumpster env2 html domain = Except.ok (some res2) →
      res2.dns_records = res.dns_records) := by
  obtain ⟨t1, t2, t3, t4, h1, h2, h3, h4, rfl⟩ := parse_ok_inv h
  refine ⟨?_, ?_, rfl, ?_⟩
  · intro hi
    simp [hi]
  · intro url hi hg
    simp [hi, hg]
  · intro env2 res2 hsoup h2p
    obtain ⟨s1, s2, s3, s4, k1, k2, k3, k4, rfl⟩ := parse_ok_inv h2p
    rw [hsoup] at k1 k2 k3 k4
    rw [h1] at k1
    rw [h2] at k2
    rw [h3] at k3
    rw [h4] at k4
    cases k1
    cases k2
    cases k3
    cases k4
    rfl

/-- C6 witness: under `env5` (every GET fails), a page with no image URL and a
page with a matched image URL both leave `image_data` null, and `xls_data`
follows its own policy. -/
theorem c6_asset_isolation_witness :
    qres5.image_data = none ∧ qres5.image_data = none ∧
    qres5.xls_data = (xlsUrl "page" "example.com").bind
      (fun url => (env5.httpGet url).map env5.b64encode) :=
  ⟨(@c6_asset_isolation env5 "page" "example.com" qres5 rfl).1 rfl,
   (@c6_asset_isolation env5 htmlImg "example.com" qres5 rfl).2.1
      "https://api.dnsdumpster.com/static/maps/example.com-0a1b.png" rfl rfl,
   (@c6_asset_isolation env5 "page" "example.com" qres5 rfl).2.2.1⟩

/-- C7: whenever table index 4 exists (at least 5 tables), the parse succeeds
and the result's txt list is exactly the trimmed text of each cell of that
table, one entry per cell in table order (so its length is the cell count);
`retrieve_txt_record` is total, so TXT extraction never fails. -/
theorem c7_txt_records (env : Env) (html domain : String) (t4 : Table)
    (h4 : (env.soupTables html)[4]? = some t4) :
    ∃ res, parse_dnsdumpster env html domain = Except.ok (some res) ∧
      res.dns_records.txt = t4.findAll_td.map (fun td => pyStrip td.text) ∧
      res.dns_records.txt.length = t4.findAll_td.length := by
  obtain ⟨hlen, -⟩ := List.getElem?_eq_some.mp h4
  simp only [parse_dnsdumpster]
  rw [if_pos (show (env.soupTables html).length ≥ 4 by omega),
      List.getElem?_eq_getElem (show 1 < (env.soupTables html).length
        by omega),
      List.getElem?_eq_getElem (show 2 < (env.soupTables html).length
        by omega),
      List.getElem?_eq_getElem (show 3 < (env.soupTables html).length
        by omega),
      h4]
  exact ⟨_, rfl, retrieve_txt_eq t4, by simp [retrieve_txt_eq]⟩

/-- C7 witness: the TXT property at `env5`, whose table index 4 is
`tableTxt`. -/
theorem c7_txt_records_witness :
    ∃ res, parse_dnsdumpster env5 "page" "example.com"
        = Except.ok (some res) ∧
      res.dns_records.txt
        = tableTxt.findAll_td.map (fun td => pyStrip td.text) ∧
      res.dns_records.txt.length = tableTxt.findAll_td.length :=
  c7_txt_records env5 "page" "example.com" tableTxt rfl

/-- C8: a successful parse returns a Query Result whose `domain` field is
exactly the caller-supplied argument, and the result is precisely the record
`{domain, dns_records, image_data, xls_data}` (the type `QueryResult`, whose
`dns_records` carries exactly the keys a, mx, ns, txt). -/
theorem c8_domain_field {env : Env} {html domain : String}
    {res : QueryResult}
    (h : parse_dnsdumpster env html domain = Except.ok (some res)) :
    res.domain = domain ∧
    res = { domain := domain, dns_records := res.dns_records,
            image_data := res.image_data, xls_data := res.xls_data } := by
  obtain ⟨t1, t2, t3, t4, _, _, _, _, rfl⟩ := parse_ok_inv h
  exact ⟨rfl, rfl⟩

/-- C8 witness: the domain field of the concrete parse under `env5`. -/
theorem c8_domain_field_witness :
    qres5.domain = "example.com" ∧
    qres5 = { domain := "example.com", dns_records := qres5.dns_records,
              image_data := qres5.image_data, xls_data := qres5.xls_data } :=
  @c8_domain_field env5 "page" "example.com" qres5 rfl

/-- C9: every entry of the A/MX/NS extractor (a `RowEntry`, which carries
exactly the eight keys host, ip, reverse_dns, as, asn_range, asn_name,
asn_country, open_service) comes from some row of the table, and its `ip` is
the first dotted-quad match (four 1-to-3-digit groups separated by dots) in
that row's second cell's text. -/
theorem c9_entry_shape (t : Table) (e : RowEntry)
    (he : e ∈ retrieve_results t) :
    isQuadString e.ip.data ∧
    ∃ tr, tr ∈ t.trs ∧ ∃ td1, tr.tds[1]? = some td1 ∧
      (firstQuad td1.text.data).map String.mk = some e.ip := by
  rw [retrieve_results_eq] at he
  obtain ⟨tr, htr, hex⟩ := List.mem_filterMap.mp he
  obtain ⟨td0, host, td1, ipm, a, b, _, _, h1, hip, _, rfl⟩ :=
    extract_row_inv hex
  refine ⟨firstQuad_isQuad hip, tr, htr, td1, h1, ?_⟩
  rw [hip]
  rfl

/-- C9 witness: the invariant at the concrete entry of `tableMixed`. -/
theorem c9_entry_shape_witness :
    isQuadString entryGood.ip.data ∧
    ∃ tr, tr ∈ tableMixed.trs ∧ ∃ td1, tr.tds[1]? = some td1 ∧
      (firstQuad td1.text.data).map String.mk = some entryGood.ip :=
  c9_entry_shape tableMixed entryGood (by decide)

/-- C10: if the submit step returns an empty-string body (an HTTP 200 with no
content), `search` returns Absent without invoking the parser, exactly as for
a transport failure, because of the truthiness test `if html:`. -/
theorem c10_empty_body_short_circuit (auth : Option String) (env : Env)
    (domain : String)
    (h : (get_dnsdumpster auth env domain).1 = some "") :
    (search auth env domain).1 = Except.ok none ∧
    Effect.parseCall ∉ (search auth env domain).2 := by
  constructor
  · simp [search, h]
  · simp only [search, h]
    simpa using parseCall_not_in_get auth env domain

/-- C10 witness: a concrete environment whose POST returns status 200 with an
empty body. -/
theorem c10_empty_body_short_circuit_witness :
    (search (some "tok") envEB "d").1 = Except.ok none ∧
    Effect.parseCall ∉ (search (some "tok") envEB "d").2 :=
  c10_empty_body_short_circuit (some "tok") envEB "d" rfl

end DD
